import Mathlib

/-!
# Verification of the SuiSight service worker (`src/sw.js`)

A shallow embedding of the service worker's cache layer: the request
router, the two fetch strategies (API lane and page lane), the install
and activate lifecycle handlers, and the size-limiting eviction routine.

Cache partitions are modelled as association lists from a request
identity (the full URL string, GET-only) to a stored response snapshot,
preserving insertion order, as the Cache API does for `keys()`.
The global cache storage is an association list from partition name to
partition.  Network fetches are modelled by an explicit outcome value
(resolved response or rejection), and the asynchronous handlers become
pure functions from (storage, request, network outcome) to
(action, network-used flag, new storage).
-/

namespace SuiSight

/-- A stored response snapshot: status, status text, headers, body
(the parts of a `Response` the worker constructs or inspects). -/
structure ResponseSnapshot where
  status : Nat
  statusText : String
  headers : List (String × String)
  body : String
  deriving DecidableEq, Repr

/-- `Response.ok`: status in the range 200..299. -/
def ResponseSnapshot.ok (r : ResponseSnapshot) : Bool :=
  decide (200 ≤ r.status) && decide (r.status ≤ 299)

/-- URL components as exposed by `new URL(request.url)`. -/
structure Url where
  scheme : String
  hostname : String
  port : String
  pathname : String
  search : String
  fragment : String
  deriving DecidableEq, Repr

/-- The serialized URL string (`request.url` / `url.href`). -/
def Url.href (u : Url) : String :=
  u.scheme ++ "://" ++ u.hostname ++
    (if u.port == "" then "" else ":" ++ u.port) ++
    u.pathname ++ u.search ++ u.fragment

/-- An intercepted request: method, parsed URL, and request mode
(`"navigate"` for page navigations). -/
structure Request where
  method : String
  url : Url
  mode : String
  deriving DecidableEq, Repr

/-- Does `needle` start the list `hay`? (helper for the substring test). -/
def listStarts : List Char → List Char → Bool
  | _, [] => true
  | [], _ :: _ => false
  | a :: as, b :: bs => a == b && listStarts as bs

/-- Does `needle` occur somewhere inside `hay`? (helper). -/
def listHasInfix : List Char → List Char → Bool
  | hay, needle =>
    listStarts hay needle ||
      match hay with
      | [] => false
      | _ :: rest => listHasInfix rest needle

/-- JavaScript `String.prototype.includes`: substring containment. -/
def jsIncludes (s pat : String) : Bool :=
  listHasInfix s.data pat.data

/-- JavaScript `String.prototype.startsWith`: prefix test. -/
def jsStartsWith (s pre : String) : Bool :=
  listStarts s.data pre.data

/-- Cache names from the top of `sw.js`. -/
def CACHE_NAME : String := "suisight-v1.0.0"

/-- Current static partition name. -/
def STATIC_CACHE_NAME : String := "suisight-static-v1.0.0"

/-- Current dynamic partition name. -/
def DYNAMIC_CACHE_NAME : String := "suisight-dynamic-v1.0.0"

/-- The static asset manifest (`STATIC_ASSETS`). -/
def STATIC_ASSETS : List String :=
  ["/", "/index.html", "/manifest.json", "/Fulcrum.png", "/vite.svg"]

/-- A cache partition: entries in insertion order, identity unique. -/
abbrev Cache : Type := List (String × ResponseSnapshot)

/-- The global cache storage: named partitions in creation order. -/
abbrev CacheStorage : Type := List (String × Cache)

/-- `cache.put(request, response)`: overwrite the entry for the identity
in place if present, otherwise append a fresh entry at the end
(preserving insertion order for `keys()`). -/
def cachePut : Cache → String → ResponseSnapshot → Cache
  | [], k, v => [(k, v)]
  | e :: rest, k, v =>
    if e.1 == k then (k, v) :: rest else e :: cachePut rest k v

/-- `cache.delete(request)`: remove the entry for the identity. -/
def cacheDelete (c : Cache) (k : String) : Cache :=
  c.filter (fun e => e.1 != k)

/-- `cache.match(request)` restricted to one partition: first entry for
the identity. -/
def cacheMatchOne : Cache → String → Option ResponseSnapshot
  | [], _ => none
  | e :: rest, k => if e.1 == k then some e.2 else cacheMatchOne rest k

/-- `caches.match(request)`: search every partition in order, return the
first hit or nothing. -/
def cachesMatch : CacheStorage → String → Option ResponseSnapshot
  | [], _ => none
  | (_, c) :: rest, k =>
    match cacheMatchOne c k with
    | some r => some r
    | none => cachesMatch rest k

/-- `caches.open(name)` viewed as a read: the partition's current
contents (empty if the partition does not exist yet). -/
def csOpen : CacheStorage → String → Cache
  | [], _ => []
  | p :: rest, name => if p.1 == name then p.2 else csOpen rest name

/-- Write back a partition's contents under its name, creating the
partition if absent (the write half of `caches.open`). -/
def csSet : CacheStorage → String → Cache → CacheStorage
  | [], name, c => [(name, c)]
  | p :: rest, name, c =>
    if p.1 == name then (name, c) :: rest else p :: csSet rest name c

/-- The outcome of a `fetch(request)` call: a resolved response or a
rejection (network failure / abort). -/
inductive FetchOutcome where
  | success (r : ResponseSnapshot)
  | failure
  deriving DecidableEq, Repr

/-- The three routing lanes of the fetch handler. -/
inductive Lane where
  | SKIP
  | API_LANE
  | PAGE_LANE
  deriving DecidableEq, Repr

/-- The router, read off the guard sequence of the fetch handler:
non-GET methods are skipped, then URLs not starting with `http`, then
`url.hostname.includes('sui') || url.pathname.includes('api')` selects
the API lane, and everything else is the page lane. -/
def classify (req : Request) : Lane :=
  if req.method != "GET" then Lane.SKIP
  else if !(jsStartsWith req.url.href "http") then Lane.SKIP
  else if jsIncludes req.url.hostname "sui" || jsIncludes req.url.pathname "api" then
    Lane.API_LANE
  else Lane.PAGE_LANE

/-- Network-first strategy of the API lane.  Returns the value the
handler resolves with (`none` models `caches.match` finding nothing, so
`respondWith` receives `undefined`), whether the network was used, and
the cache storage after the fire-and-forget write completes. -/
def apiStrategy (cs : CacheStorage) (req : Request) (net : FetchOutcome) :
    Option ResponseSnapshot × Bool × CacheStorage :=
  match net with
  | FetchOutcome.success r =>
    if r.ok then
      (some r, true,
        csSet cs DYNAMIC_CACHE_NAME
          (cachePut (csOpen cs DYNAMIC_CACHE_NAME) req.url.href r))
    else
      (some r, true, cs)
  | FetchOutcome.failure => (cachesMatch cs req.url.href, true, cs)

/-- The synthesized offline placeholder response
(`new Response('Offline', { status: 503, ... })`). -/
def offlineResponse : ResponseSnapshot :=
  { status := 503
    statusText := "Service Unavailable"
    headers := [("Content-Type", "text/plain")]
    body := "Offline" }

/-- Cache-first strategy of the page lane: serve a cached snapshot when
one exists; otherwise fetch, caching `ok` responses; on failure fall
back to the stored `/index.html` for navigations and to the synthesized
offline response otherwise. -/
def pageStrategy (cs : CacheStorage) (req : Request) (net : FetchOutcome) :
    Option ResponseSnapshot × Bool × CacheStorage :=
  match cachesMatch cs req.url.href with
  | some cached => (some cached, false, cs)
  | none =>
    match net with
    | FetchOutcome.success r =>
      if !r.ok then
        (some r, true, cs)
      else
        (some r, true,
          csSet cs DYNAMIC_CACHE_NAME
            (cachePut (csOpen cs DYNAMIC_CACHE_NAME) req.url.href r))
    | FetchOutcome.failure =>
      if req.mode == "navigate" then
        (cachesMatch cs "/index.html", true, cs)
      else
        (some offlineResponse, true, cs)

/-- What the fetch handler does with an intercepted request: return
without responding, or call `event.respondWith` with a promise that
resolves to a response (or to `undefined`). -/
inductive HandlerAction where
  | skip
  | respond (r : Option ResponseSnapshot)
  deriving DecidableEq, Repr

/-- The whole fetch handler: route, then run the selected strategy. -/
def handleFetch (cs : CacheStorage) (req : Request) (net : FetchOutcome) :
    HandlerAction × Bool × CacheStorage :=
  match classify req with
  | Lane.SKIP => (HandlerAction.skip, false, cs)
  | Lane.API_LANE =>
    let (r, used, cs') := apiStrategy cs req net
    (HandlerAction.respond r, used, cs')
  | Lane.PAGE_LANE =>
    let (r, used, cs') := pageStrategy cs req net
    (HandlerAction.respond r, used, cs')

/-- Outcome of the static preload batch (`cache.addAll` is atomic:
either every asset is stored or none is). -/
inductive PreloadOutcome where
  | success
  | failure
  deriving DecidableEq, Repr

/-- Observable effect of the install handler. -/
structure InstallEffect where
  crashed : Bool
  skipWaitingCalled : Bool
  newStorage : CacheStorage
  deriving DecidableEq, Repr

/-- The install handler: open the static partition and `addAll` the
manifest (`fetched` gives the response each asset URL resolves to).  On
success the chain continues into `self.skipWaiting()`; on failure the
trailing `.catch` logs and swallows the error, so the handler never
crashes — but the chain stops before `skipWaiting`. -/
def installHandler (cs : CacheStorage) (outcome : PreloadOutcome)
    (fetched : String → ResponseSnapshot) : InstallEffect :=
  match outcome with
  | PreloadOutcome.success =>
    let c := STATIC_ASSETS.foldl
      (fun acc a => cachePut acc a (fetched a))
      (csOpen cs STATIC_CACHE_NAME)
    { crashed := false, skipWaitingCalled := true
      newStorage := csSet cs STATIC_CACHE_NAME c }
  | PreloadOutcome.failure =>
    { crashed := false, skipWaitingCalled := false, newStorage := cs }

/-- The activate handler's cleanup: every partition whose name is
neither the current static name nor the current dynamic name is
deleted; the others are untouched. -/
def activateCleanup (cs : CacheStorage) : CacheStorage :=
  cs.filter (fun p => p.1 == STATIC_CACHE_NAME || p.1 == DYNAMIC_CACHE_NAME)

/-- `limitCacheSize(cacheName, maxItems)` on one partition: when the
entry count exceeds `maxItems`, delete the first
`keys.length - maxItems` keys in enumeration (= insertion) order. -/
def limitCacheSize (c : Cache) (maxItems : Nat) : Cache :=
  let keys := c.map Prod.fst
  if maxItems < keys.length then
    (keys.take (keys.length - maxItems)).foldl cacheDelete c
  else c

/-! ## Concrete example inputs -/

/-- `GET https://fullnode.mainnet.sui.io/health` — RPC hostname marker. -/
def rpcRequest : Request :=
  { method := "GET"
    url := { scheme := "https", hostname := "fullnode.mainnet.sui.io", port := "",
             pathname := "/health", search := "", fragment := "" }
    mode := "cors" }

/-- `GET https://example.com/dashboard` as a page navigation. -/
def pageRequest : Request :=
  { method := "GET"
    url := { scheme := "https", hostname := "example.com", port := "",
             pathname := "/dashboard", search := "", fragment := "" }
    mode := "navigate" }

/-- `GET https://example.com/icons/foo.png`, not a navigation. -/
def iconRequest : Request :=
  { method := "GET"
    url := { scheme := "https", hostname := "example.com", port := "",
             pathname := "/icons/foo.png", search := "", fragment := "" }
    mode := "no-cors" }

/-- The RPC request with a non-GET method. -/
def postRequest : Request := { rpcRequest with method := "POST" }

/-- A successful (`ok`) response snapshot. -/
def snapOk : ResponseSnapshot := ⟨200, "OK", [], "body"⟩

/-- A resolved but non-`ok` response snapshot. -/
def snapBad : ResponseSnapshot := ⟨500, "Internal Server Error", [], "err"⟩

/-! ## Helper lemmas about the store operations -/

theorem cacheDelete_cons_self (k : String) (v : ResponseSnapshot) (rest : Cache)
    (hk : k ∉ rest.map Prod.fst) : cacheDelete ((k, v) :: rest) k = rest := by
  simp only [cacheDelete, List.filter_cons, bne_self_eq_false, Bool.false_eq_true,
    if_false]
  apply List.filter_eq_self.mpr
  intro e he
  simp only [bne_iff_ne, ne_eq]
  intro h
  exact hk (h ▸ List.mem_map_of_mem Prod.fst he)

theorem foldl_cacheDelete_take (c : Cache) (m : Nat)
    (hnodup : (c.map Prod.fst).Nodup) :
    ((c.map Prod.fst).take m).foldl cacheDelete c = c.drop m := by
  induction c generalizing m with
  | nil => simp
  | cons e rest ih =>
    rcases e with ⟨k, v⟩
    simp only [List.map_cons, List.nodup_cons] at hnodup
    cases m with
    | zero => simp
    | succ m' =>
      simp only [List.map_cons, List.take_succ_cons, List.foldl_cons,
        List.drop_succ_cons]
      rw [cacheDelete_cons_self k v rest hnodup.1]
      exact ih m' hnodup.2

theorem cachePut_mem (c : Cache) (k : String) (v : ResponseSnapshot) :
    ∀ e ∈ cachePut c k v, e ∈ c ∨ e = (k, v) := by
  induction c with
  | nil =>
    intro e he
    simp only [cachePut, List.mem_singleton] at he
    exact Or.inr he
  | cons q rest ih =>
    intro e he
    rw [cachePut] at he
    split at he
    · rcases List.mem_cons.mp he with h | h
      · exact Or.inr h
      · exact Or.inl (List.mem_cons_of_mem _ h)
    · rcases List.mem_cons.mp he with h | h
      · exact Or.inl (h ▸ List.mem_cons_self _ _)
      · rcases ih e h with h' | h'
        · exact Or.inl (List.mem_cons_of_mem _ h')
        · exact Or.inr h'

theorem cachePut_self_mem (c : Cache) (k : String) (v : ResponseSnapshot) :
    (k, v) ∈ cachePut c k v := by
  induction c with
  | nil => simp [cachePut]
  | cons q rest ih =>
    rw [cachePut]
    split
    · exact List.mem_cons_self _ _
    · exact List.mem_cons_of_mem _ ih

theorem csOpen_csSet_self (cs : CacheStorage) (name : String) (c : Cache) :
    csOpen (csSet cs name c) name = c := by
  induction cs with
  | nil => simp [csSet, csOpen]
  | cons p rest ih =>
    rw [csSet]
    split
    · simp [csOpen]
    · rename_i hp
      rw [csOpen, if_neg (by simpa using hp)]
      exact ih

theorem lookup_filter_of_keeps (p : String × Cache → Bool) (name : String)
    (hkeep : ∀ c, p (name, c) = true) (cs : CacheStorage) :
    (cs.filter p).lookup name = cs.lookup name := by
  induction cs with
  | nil => rfl
  | cons q rest ih =>
    rcases q with ⟨k, c⟩
    by_cases hk : k = name
    · subst hk
      rw [List.filter_cons, if_pos (hkeep c)]
      simp [List.lookup]
    · have hbeq : (name == k) = false := by
        simp [Ne.symm hk]
      rw [List.filter_cons]
      cases hp : p (k, c)
      · simp only [Bool.false_eq_true, if_false]
        rw [ih, List.lookup, hbeq]
      · simp only [if_true]
        rw [List.lookup, hbeq, ih, List.lookup, hbeq]

/-! ## Claim theorems -/

/-- C2: for a partition with `N` entries of distinct identities inserted
in order, when `N > maxItems` the eviction routine deletes exactly the
`N - maxItems` oldest entries (the result is the suffix of the newest
`maxItems` entries), and when `N ≤ maxItems` it deletes nothing — so it
never removes more than `N - maxItems` entries, oldest first. -/
theorem limitCacheSize_evicts_oldest (c : Cache) (maxItems : Nat)
    (hnodup : (c.map Prod.fst).Nodup) :
    (maxItems < c.length →
      limitCacheSize c maxItems = c.drop (c.length - maxItems)) ∧
    (c.length ≤ maxItems → limitCacheSize c maxItems = c) := by
  constructor
  · intro h
    simp only [limitCacheSize, List.length_map, if_pos h]
    exact foldl_cacheDelete_take c (c.length - maxItems) hnodup
  · intro h
    simp only [limitCacheSize, List.length_map, if_neg (Nat.not_lt.mpr h)]

theorem limitCacheSize_evicts_oldest_witness :
    limitCacheSize [("e1", snapOk), ("e2", snapOk), ("e3", snapOk)] 1
      = [("e3", snapOk)] :=
  ((limitCacheSize_evicts_oldest [("e1", snapOk), ("e2", snapOk), ("e3", snapOk)] 1
      (by decide)).1 (by decide)).trans (by decide)

/-- C3: every GET request whose URL string starts with `http` and whose
hostname contains the `sui` marker or whose path contains the `api`
marker is classified into the API lane, whatever the remaining URL
components (port, query, fragment, rest of the path) are. -/
theorem api_marker_classifies_api_lane (req : Request)
    (hmethod : req.method = "GET")
    (hscheme : jsStartsWith req.url.href "http" = true)
    (hmark : jsIncludes req.url.hostname "sui" = true ∨
      jsIncludes req.url.pathname "api" = true) :
    classify req = Lane.API_LANE := by
  rw [classify, hmethod]
  simp only [bne_self_eq_false, Bool.false_eq_true, if_false, hscheme,
    Bool.not_true, if_false]
  rcases hmark with h | h <;> simp [h]

theorem api_marker_classifies_api_lane_witness :
    classify rpcRequest = Lane.API_LANE :=
  api_marker_classifies_api_lane rpcRequest rfl (by decide) (Or.inl (by decide))

/-- C4: a request whose method is not GET is skipped: the handler
returns without responding, issues no network request, and leaves the
cache storage exactly as it was. -/
theorem non_get_is_skipped (cs : CacheStorage) (req : Request)
    (net : FetchOutcome) (h : req.method ≠ "GET") :
    handleFetch cs req net = (HandlerAction.skip, false, cs) := by
  have hb : (req.method != "GET") = true := by simp [h]
  simp [handleFetch, classify, hb]

theorem non_get_is_skipped_witness :
    handleFetch [] postRequest FetchOutcome.failure
      = (HandlerAction.skip, false, []) :=
  non_get_is_skipped [] postRequest FetchOutcome.failure (by decide)

/-- C5: a page-lane request whose identity matches a cached entry in
some partition is answered with that cached snapshot, the network is
not consulted, and the storage is unchanged — independent of what the
network would have returned. -/
theorem page_lane_cache_hit_serves_cache (cs : CacheStorage) (req : Request)
    (snap : ResponseSnapshot) (net : FetchOutcome)
    (hlane : classify req = Lane.PAGE_LANE)
    (hhit : cachesMatch cs req.url.href = some snap) :
    handleFetch cs req net = (HandlerAction.respond (some snap), false, cs) := by
  rw [handleFetch, hlane]
  simp only [pageStrategy, hhit]

theorem page_lane_cache_hit_serves_cache_witness :
    handleFetch [(STATIC_CACHE_NAME, [("https://example.com/dashboard", snapOk)])]
        pageRequest FetchOutcome.failure
      = (HandlerAction.respond (some snapOk), false,
          [(STATIC_CACHE_NAME, [("https://example.com/dashboard", snapOk)])]) :=
  page_lane_cache_hit_serves_cache
    [(STATIC_CACHE_NAME, [("https://example.com/dashboard", snapOk)])]
    pageRequest snapOk FetchOutcome.failure (by decide) (by decide)

/-- C1 (counterexample): an API-lane request whose network fetch fails
and which has no matching cache entry does NOT yield a response object:
the handler responds with the empty result of `caches.match`, i.e. the
`respondWith` promise resolves to `undefined`. -/
theorem api_lane_failure_no_cache_counterexample :
    handleFetch [] rpcRequest FetchOutcome.failure
      = (HandlerAction.respond none, true, []) := by decide

/-- C1 (amended): when the network fetch of an API-lane request fails,
the handler still resolves — never an unhandled rejection — with
exactly the result of matching the request against the caches: the
cached snapshot when one exists, and no response (`undefined`)
otherwise; the storage is left unchanged. -/
theorem api_lane_failure_resolves_to_cache_match (cs : CacheStorage)
    (req : Request) (net : FetchOutcome)
    (hlane : classify req = Lane.API_LANE)
    (hnet : net = FetchOutcome.failure) :
    handleFetch cs req net
      = (HandlerAction.respond (cachesMatch cs req.url.href), true, cs) := by
  subst hnet
  rw [handleFetch, hlane]
  rfl

theorem api_lane_failure_resolves_to_cache_match_witness :
    handleFetch
        [(DYNAMIC_CACHE_NAME, [("https://fullnode.mainnet.sui.io/health", snapOk)])]
        rpcRequest FetchOutcome.failure
      = (HandlerAction.respond (some snapOk), true,
          [(DYNAMIC_CACHE_NAME, [("https://fullnode.mainnet.sui.io/health", snapOk)])]) :=
  (api_lane_failure_resolves_to_cache_match
      [(DYNAMIC_CACHE_NAME, [("https://fullnode.mainnet.sui.io/health", snapOk)])]
      rpcRequest FetchOutcome.failure (by decide) rfl).trans (by decide)

/-- C6: a page-lane request with no cached entry whose network fetch
fails gets, for a navigation request, the stored `/index.html`
snapshot, and otherwise the synthesized offline response with status
503, status text "Service Unavailable", header
`Content-Type: text/plain` and body "Offline". -/
theorem page_lane_offline_fallback (cs : CacheStorage) (req : Request)
    (snap : ResponseSnapshot)
    (hmiss : cachesMatch cs req.url.href = none) :
    (req.mode = "navigate" → cachesMatch cs "/index.html" = some snap →
      (pageStrategy cs req FetchOutcome.failure).1 = some snap) ∧
    (req.mode ≠ "navigate" →
      (pageStrategy cs req FetchOutcome.failure).1 = some offlineResponse ∧
      offlineResponse.status = 503 ∧
      offlineResponse.statusText = "Service Unavailable" ∧
      offlineResponse.headers = [("Content-Type", "text/plain")] ∧
      offlineResponse.body = "Offline") := by
  constructor
  · intro hnav hidx
    have hb : (req.mode == "navigate") = true := by simp [hnav]
    simp only [pageStrategy, hmiss, hb, if_true, hidx]
  · intro hnav
    have hb : (req.mode == "navigate") = false := by simp [hnav]
    refine ⟨?_, by decide, by decide, by decide, by decide⟩
    simp only [pageStrategy, hmiss, hb, Bool.false_eq_true, if_false]

theorem page_lane_offline_fallback_witness :
    (pageStrategy [(STATIC_CACHE_NAME, [("/index.html", snapOk)])] pageRequest
        FetchOutcome.failure).1 = some snapOk ∧
    (pageStrategy [] iconRequest FetchOutcome.failure).1 = some offlineResponse :=
  ⟨(page_lane_offline_fallback [(STATIC_CACHE_NAME, [("/index.html", snapOk)])]
      pageRequest snapOk (by decide)).1 rfl (by decide),
   ((page_lane_offline_fallback [] iconRequest snapOk rfl).2 (by decide)).1⟩

/-- C8 (counterexample): when the static preload fails, the install
handler completes without crashing (the trailing catch swallows the
error) but the chain stops before `self.skipWaiting()`, so the
immediate-takeover signal is NOT issued on the failure outcome. -/
theorem install_failure_counterexample :
    (installHandler [] PreloadOutcome.failure (fun _ => snapOk)).crashed = false ∧
    (installHandler [] PreloadOutcome.failure (fun _ => snapOk)).skipWaitingCalled
      = false := by
  constructor <;> rfl

/-- C8 (amended): the install handler never crashes, on either preload
outcome, and the skip-waiting signal is issued exactly when the preload
succeeds. -/
theorem install_never_crashes_signals_on_success (cs : CacheStorage)
    (fetched : String → ResponseSnapshot) (outcome : PreloadOutcome) :
    (installHandler cs outcome fetched).crashed = false ∧
    ((installHandler cs outcome fetched).skipWaitingCalled = true ↔
      outcome = PreloadOutcome.success) := by
  cases outcome <;> simp [installHandler]

/-- C9: the activation cleanup destroys a partition exactly when its
name is neither the current static name nor the current dynamic name,
and the two current partitions keep exactly their previous contents. -/
theorem activate_destroys_exactly_stale (cs : CacheStorage) (name : String) :
    (name ∈ (activateCleanup cs).map Prod.fst ↔
      name ∈ cs.map Prod.fst ∧
        (name = STATIC_CACHE_NAME ∨ name = DYNAMIC_CACHE_NAME)) ∧
    (activateCleanup cs).lookup STATIC_CACHE_NAME = cs.lookup STATIC_CACHE_NAME ∧
    (activateCleanup cs).lookup DYNAMIC_CACHE_NAME = cs.lookup DYNAMIC_CACHE_NAME := by
  refine ⟨⟨?_, ?_⟩, ?_, ?_⟩
  · intro h
    obtain ⟨p, hp, rfl⟩ := List.mem_map.mp h
    obtain ⟨hpmem, hcond⟩ := List.mem_filter.mp hp
    exact ⟨List.mem_map_of_mem Prod.fst hpmem, by simpa using hcond⟩
  · rintro ⟨hmem, hcond⟩
    obtain ⟨p, hp, rfl⟩ := List.mem_map.mp hmem
    exact List.mem_map_of_mem Prod.fst
      (List.mem_filter.mpr ⟨hp, by simpa using hcond⟩)
  · exact lookup_filter_of_keeps _ _ (fun c => by simp) cs
  · exact lookup_filter_of_keeps _ _ (fun c => by simp) cs

/-- C10: a navigation request whose network fetch fails and for which
no partition stores `/index.html` resolves to no response object at
all (the fallback `caches.match('/index.html')` finds nothing), not to
the synthesized 503 offline response. -/
theorem navigation_fallback_missing_index (cs : CacheStorage) (req : Request)
    (hmiss : cachesMatch cs req.url.href = none)
    (hnav : req.mode = "navigate")
    (hidx : cachesMatch cs "/index.html" = none) :
    (pageStrategy cs req FetchOutcome.failure).1 = none ∧
    (pageStrategy cs req FetchOutcome.failure).1 ≠ some offlineResponse := by
  have hb : (req.mode == "navigate") = true := by simp [hnav]
  have h1 : (pageStrategy cs req FetchOutcome.failure).1 = none := by
    simp only [pageStrategy, hmiss, hb, if_true, hidx]
  exact ⟨h1, by rw [h1]; simp⟩

theorem navigation_fallback_missing_index_witness :
    (pageStrategy [] pageRequest FetchOutcome.failure).1 = none ∧
    (pageStrategy [] pageRequest FetchOutcome.failure).1 ≠ some offlineResponse :=
  navigation_fallback_missing_index [] pageRequest rfl rfl rfl

/-- C7: in both strategies the dynamic partition is written exactly on
a successful fetch with an `ok` response: every entry of the dynamic
partition afterwards was already there or is the identity/`ok`-response
pair of this fetch; an `ok` success does store that pair (in the page
lane, whenever the strategy fetched at all, i.e. on a cache miss); and
a non-`ok` response is returned to the caller unmodified with the
storage untouched. -/
theorem dynamic_writes_exactly_ok_responses (cs : CacheStorage) (req : Request)
    (net : FetchOutcome) :
    (∀ e, e ∈ csOpen (apiStrategy cs req net).2.2 DYNAMIC_CACHE_NAME →
      e ∈ csOpen cs DYNAMIC_CACHE_NAME ∨
        ∃ r, net = FetchOutcome.success r ∧ r.ok = true ∧ e = (req.url.href, r)) ∧
    (∀ e, e ∈ csOpen (pageStrategy cs req net).2.2 DYNAMIC_CACHE_NAME →
      e ∈ csOpen cs DYNAMIC_CACHE_NAME ∨
        ∃ r, net = FetchOutcome.success r ∧ r.ok = true ∧ e = (req.url.href, r)) ∧
    (∀ r, net = FetchOutcome.success r → r.ok = true →
      (req.url.href, r) ∈ csOpen (apiStrategy cs req net).2.2 DYNAMIC_CACHE_NAME ∧
      (cachesMatch cs req.url.href = none →
        (req.url.href, r) ∈
          csOpen (pageStrategy cs req net).2.2 DYNAMIC_CACHE_NAME)) ∧
    (∀ r, net = FetchOutcome.success r → r.ok = false →
      (apiStrategy cs req net).1 = some r ∧ (apiStrategy cs req net).2.2 = cs ∧
      (cachesMatch cs req.url.href = none →
        (pageStrategy cs req net).1 = some r ∧
          (pageStrategy cs req net).2.2 = cs)) := by
  refine ⟨?_, ?_, ?_, ?_⟩
  · intro e he
    cases net with
    | failure => exact Or.inl he
    | success r =>
      cases hok : r.ok with
      | true =>
        simp only [apiStrategy, hok, if_true, csOpen_csSet_self] at he
        rcases cachePut_mem _ _ _ e he with h | h
        · exact Or.inl h
        · exact Or.inr ⟨r, rfl, hok, h⟩
      | false =>
        simp only [apiStrategy, hok, Bool.false_eq_true, if_false] at he
        exact Or.inl he
  · intro e he
    cases hcm : cachesMatch cs req.url.href with
    | some cached =>
      simp only [pageStrategy, hcm] at he
      exact Or.inl he
    | none =>
      cases net with
      | failure =>
        simp only [pageStrategy, hcm] at he
        cases hb : req.mode == "navigate" with
        | true => rw [if_pos hb] at he; exact Or.inl he
        | false =>
          rw [if_neg (by simp [hb])] at he
          exact Or.inl he
      | success r =>
        cases hok : r.ok with
        | true =>
          simp only [pageStrategy, hcm, hok, Bool.not_true, Bool.false_eq_true,
            if_false, csOpen_csSet_self] at he
          rcases cachePut_mem _ _ _ e he with h | h
          · exact Or.inl h
          · exact Or.inr ⟨r, rfl, hok, h⟩
        | false =>
          simp only [pageStrategy, hcm, hok, Bool.not_false, if_true] at he
          exact Or.inl he
  · intro r hnet hok
    subst hnet
    constructor
    · simp only [apiStrategy, hok, if_true, csOpen_csSet_self]
      exact cachePut_self_mem _ _ _
    · intro hmiss
      simp only [pageStrategy, hmiss, hok, Bool.not_true, Bool.false_eq_true,
        if_false, csOpen_csSet_self]
      exact cachePut_self_mem _ _ _
  · intro r hnet hok
    subst hnet
    refine ⟨?_, ?_, fun hmiss => ⟨?_, ?_⟩⟩
    · simp only [apiStrategy, hok, Bool.false_eq_true, if_false]
    · simp only [apiStrategy, hok, Bool.false_eq_true, if_false]
    · simp only [pageStrategy, hmiss, hok, Bool.not_false, if_true]
    · simp only [pageStrategy, hmiss, hok, Bool.not_false, if_true]

theorem dynamic_writes_exactly_ok_responses_witness :
    ("https://fullnode.mainnet.sui.io/health", snapOk) ∈
      csOpen (apiStrategy [] rpcRequest (FetchOutcome.success snapOk)).2.2
        DYNAMIC_CACHE_NAME ∧
    (apiStrategy [] rpcRequest (FetchOutcome.success snapBad)).1 = some snapBad ∧
    (apiStrategy [] rpcRequest (FetchOutcome.success snapBad)).2.2 = [] :=
  ⟨((dynamic_writes_exactly_ok_responses [] rpcRequest
      (FetchOutcome.success snapOk)).2.2.1 snapOk rfl (by decide)).1,
   ((dynamic_writes_exactly_ok_responses [] rpcRequest
      (FetchOutcome.success snapBad)).2.2.2 snapBad rfl (by decide)).1,
   ((dynamic_writes_exactly_ok_responses [] rpcRequest
      (FetchOutcome.success snapBad)).2.2.2 snapBad rfl (by decide)).2.1⟩

end SuiSight
